import Mathlib

/-!
Verification of the swapchain negotiation logic of the vulkan_window
repository (src/vulkan_window/triangle_application.cpp).

The embedded functions are `ChooseSwapSurfaceFormat`,
`ChooseSwapPresentMode`, `ChooseSwapExtent` (lines 509-579) and the
image-count selection plus the composite negotiation inlined in
`CreateSwapChain` (lines 581-601).  Machine `uint32_t` values are
modelled as `Nat` with explicit `% 2^32` at the one place the C++ code
can overflow (`minImageCount + 1`).  The framebuffer size obtained from
`glfwGetFramebufferSize` (already cast to `uint32_t` by the code) is an
explicit pair of parameters.
-/

namespace VulkanWindow

/-- Maximum representable unsigned 32-bit value,
`std::numeric_limits<uint32_t>::max()` in the C++ source. -/
def UINT32_MAX : Nat := 4294967295

/-- Vulkan enum constant values (from vulkan_core.h). -/
def VK_FORMAT_B8G8R8A8_SRGB : Nat := 50

def VK_FORMAT_R8G8B8A8_SRGB : Nat := 43

def VK_COLOR_SPACE_SRGB_NONLINEAR_KHR : Nat := 0

def VK_COLOR_SPACE_EXTENDED_SRGB_LINEAR_EXT : Nat := 1000104002

def VK_PRESENT_MODE_MAILBOX_KHR : Nat := 1

def VK_PRESENT_MODE_FIFO_KHR : Nat := 2

/-- Width and height in pixels, `VkExtent2D`. -/
structure VkExtent2D where
  width : Nat
  height : Nat
deriving DecidableEq

/-- A (pixel format, color space) pair, `VkSurfaceFormatKHR`. -/
structure VkSurfaceFormatKHR where
  format : Nat
  colorSpace : Nat
deriving DecidableEq

/-- The fields of `VkSurfaceCapabilitiesKHR` that the negotiation reads. -/
structure VkSurfaceCapabilitiesKHR where
  minImageCount : Nat
  maxImageCount : Nat
  currentExtent : VkExtent2D
  minImageExtent : VkExtent2D
  maxImageExtent : VkExtent2D
deriving DecidableEq

/-- The matching predicate of the loop in
`TriangleApplication::ChooseSwapSurfaceFormat` (lines 519-524). -/
def isPreferredFormat (f : VkSurfaceFormatKHR) : Bool :=
  f.format == VK_FORMAT_B8G8R8A8_SRGB &&
    f.colorSpace == VK_COLOR_SPACE_SRGB_NONLINEAR_KHR

/-- `TriangleApplication::ChooseSwapSurfaceFormat` (lines 509-527): scan
for the preferred (B8G8R8A8_SRGB, SRGB_NONLINEAR) entry, else fall back
to `availableFormats[0]`.  The C++ index access on an empty vector is
undefined behaviour; it is modelled as `List.get?`, so the function
returns `none` exactly when the fallback index would be out of bounds. -/
def ChooseSwapSurfaceFormat (availableFormats : List VkSurfaceFormatKHR) :
    Option VkSurfaceFormatKHR :=
  match availableFormats.find? isPreferredFormat with
  | some f => some f
  | none => availableFormats[0]?

/-- `TriangleApplication::ChooseSwapPresentMode` (lines 529-543): return
the first element equal to `VK_PRESENT_MODE_MAILBOX_KHR` if one exists,
else `VK_PRESENT_MODE_FIFO_KHR`. -/
def ChooseSwapPresentMode (availablePresentModes : List Nat) : Nat :=
  match availablePresentModes.find? (fun m => m == VK_PRESENT_MODE_MAILBOX_KHR) with
  | some m => m
  | none => VK_PRESENT_MODE_FIFO_KHR

/-- `std::clamp(v, lo, hi)`: `lo` if `v < lo`, `hi` if `hi < v`, else `v`. -/
def stdClamp (v lo hi : Nat) : Nat :=
  if v < lo then lo else if hi < v then hi else v

/-- `TriangleApplication::ChooseSwapExtent` (lines 545-579): if
`capabilities.currentExtent.width` differs from `UINT32_MAX`, return
`currentExtent` unchanged; otherwise clamp the framebuffer size (queried
via `glfwGetFramebufferSize` and cast to `uint32_t`, here the parameters
`fbWidth` and `fbHeight`) componentwise into
`[minImageExtent, maxImageExtent]`. -/
def ChooseSwapExtent (capabilities : VkSurfaceCapabilitiesKHR)
    (fbWidth fbHeight : Nat) : VkExtent2D :=
  if capabilities.currentExtent.width ≠ UINT32_MAX then
    capabilities.currentExtent
  else
    { width := stdClamp fbWidth capabilities.minImageExtent.width
        capabilities.maxImageExtent.width,
      height := stdClamp fbHeight capabilities.minImageExtent.height
        capabilities.maxImageExtent.height }

/-- The image-count computation inlined in
`TriangleApplication::CreateSwapChain` (lines 594-601):
`image_count = minImageCount + 1` in `uint32_t` arithmetic, clamped down
to `maxImageCount` when that bound is nonzero and exceeded. -/
def SwapChainImageCount (capabilities : VkSurfaceCapabilitiesKHR) : Nat :=
  let image_count := (capabilities.minImageCount + 1) % 4294967296
  if capabilities.maxImageCount > 0 ∧ image_count > capabilities.maxImageCount then
    capabilities.maxImageCount
  else
    image_count

/-- The negotiated output consumed by swapchain creation. -/
structure ChosenSwapchainConfig where
  surfaceFormat : VkSurfaceFormatKHR
  presentMode : Nat
  extent : VkExtent2D
  imageCount : Nat
deriving DecidableEq

/-- The composite negotiation performed at the start of
`TriangleApplication::CreateSwapChain` (lines 581-601): the three
selection calls plus the image-count computation, packaged together.
`none` only when the format fallback index would be out of bounds. -/
def Negotiate (capabilities : VkSurfaceCapabilitiesKHR)
    (formats : List VkSurfaceFormatKHR) (modes : List Nat)
    (fbWidth fbHeight : Nat) : Option ChosenSwapchainConfig :=
  match ChooseSwapSurfaceFormat formats with
  | none => none
  | some sf =>
      some { surfaceFormat := sf,
             presentMode := ChooseSwapPresentMode modes,
             extent := ChooseSwapExtent capabilities fbWidth fbHeight,
             imageCount := SwapChainImageCount capabilities }

/-! Helper lemmas shared by several theorems. -/

/-- Unfolding of `ChooseSwapPresentMode` into a membership test. -/
lemma choosePresentMode_eq (modes : List Nat) :
    ChooseSwapPresentMode modes =
      if VK_PRESENT_MODE_MAILBOX_KHR ∈ modes then VK_PRESENT_MODE_MAILBOX_KHR
      else VK_PRESENT_MODE_FIFO_KHR := by
  unfold ChooseSwapPresentMode
  cases h : modes.find? (fun m => m == VK_PRESENT_MODE_MAILBOX_KHR) with
  | none =>
      rw [List.find?_eq_none] at h
      have hnm : VK_PRESENT_MODE_MAILBOX_KHR ∉ modes := by
        intro hm
        exact absurd (by simp) (h _ hm)
      simp [hnm]
  | some m =>
      have hm := List.find?_some h
      have hmem := List.mem_of_find?_eq_some h
      have hmv : m = VK_PRESENT_MODE_MAILBOX_KHR := by simpa using hm
      subst hmv
      simp [hmem]

/-- `stdClamp` lands in `[lo, hi]` whenever `lo ≤ hi`. -/
lemma stdClamp_bounds (v lo hi : Nat) (h : lo ≤ hi) :
    lo ≤ stdClamp v lo hi ∧ stdClamp v lo hi ≤ hi := by
  unfold stdClamp
  split
  · omega
  · split <;> omega

/-- Concrete capabilities used in counterexamples and witnesses. -/
def capsWidthSentinelOnly : VkSurfaceCapabilitiesKHR :=
  { minImageCount := 2, maxImageCount := 0,
    currentExtent := ⟨UINT32_MAX, 600⟩,
    minImageExtent := ⟨1, 1⟩, maxImageExtent := ⟨100, 100⟩ }

/-- Concrete capabilities whose current extent is fixed at 800 by 600. -/
def capsFixedExtent : VkSurfaceCapabilitiesKHR :=
  { minImageCount := 2, maxImageCount := 0,
    currentExtent := ⟨800, 600⟩,
    minImageExtent := ⟨1, 1⟩, maxImageExtent := ⟨4096, 4096⟩ }

/-- Concrete capabilities of the end-to-end example in the spec. -/
def capsEndToEnd : VkSurfaceCapabilitiesKHR :=
  { minImageCount := 2, maxImageCount := 0,
    currentExtent := ⟨UINT32_MAX, UINT32_MAX⟩,
    minImageExtent := ⟨1, 1⟩, maxImageExtent := ⟨4096, 4096⟩ }

/-- Concrete capabilities with sentinel extent and bounds (1,1)..(1024,1024). -/
def capsSmallBounds : VkSurfaceCapabilitiesKHR :=
  { minImageCount := 2, maxImageCount := 0,
    currentExtent := ⟨UINT32_MAX, UINT32_MAX⟩,
    minImageExtent := ⟨1, 1⟩, maxImageExtent := ⟨1024, 1024⟩ }

/-! Claim theorems. -/

/-- Claim C1, counterexample: the code compares only the width against the
sentinel, so a capabilities value whose current extent has sentinel width but
non-sentinel height (hence is not the sentinel on both axes simultaneously)
is not returned unchanged: the clamp branch runs instead. -/
theorem chooseSwapExtent_not_identity_on_width_sentinel :
    capsWidthSentinelOnly.currentExtent ≠ ⟨UINT32_MAX, UINT32_MAX⟩ ∧
    ChooseSwapExtent capsWidthSentinelOnly 800 600 ≠
      capsWidthSentinelOnly.currentExtent := by
  decide

/-- Claim C1, amended: `ChooseSwapExtent` returns `capabilities.currentExtent`
unchanged whenever `currentExtent.width` is not the sentinel value
`UINT32_MAX`; the height axis is never examined, so in particular this also
holds when the height alone equals the sentinel. -/
theorem chooseSwapExtent_id_of_width_ne_sentinel
    (caps : VkSurfaceCapabilitiesKHR) (fbWidth fbHeight : Nat)
    (h : caps.currentExtent.width ≠ UINT32_MAX) :
    ChooseSwapExtent caps fbWidth fbHeight = caps.currentExtent := by
  unfold ChooseSwapExtent
  simp [h]

/-- Claim C1, witness: a fixed 800 by 600 current extent is returned as is. -/
theorem chooseSwapExtent_id_witness :
    capsFixedExtent.currentExtent.width ≠ UINT32_MAX ∧
    ChooseSwapExtent capsFixedExtent 300 200 = capsFixedExtent.currentExtent :=
  ⟨by decide, chooseSwapExtent_id_of_width_ne_sentinel capsFixedExtent 300 200 (by decide)⟩

/-- Claim C2: in `uint32_t` arithmetic the selected image count is
`minImageCount + 1` when `maxImageCount = 0` or that sum does not exceed
`maxImageCount`, and `maxImageCount` otherwise. -/
theorem swapChainImageCount_spec (caps : VkSurfaceCapabilitiesKHR)
    (_hmin : caps.minImageCount < 4294967296)
    (hmax : caps.maxImageCount < 4294967296) :
    ((caps.maxImageCount = 0 ∨
        (caps.minImageCount + 1) % 4294967296 ≤ caps.maxImageCount) →
      SwapChainImageCount caps = (caps.minImageCount + 1) % 4294967296) ∧
    (¬ (caps.maxImageCount = 0 ∨
        (caps.minImageCount + 1) % 4294967296 ≤ caps.maxImageCount) →
      SwapChainImageCount caps = caps.maxImageCount) := by
  simp only [SwapChainImageCount]
  constructor
  · intro hcond
    split
    · next hif => omega
    · rfl
  · intro hcond
    split
    · rfl
    · next hif =>
        exfalso
        apply hif
        omega

/-- Claim C2, witness: min=2, max=0 yields 3 and min=3, max=3 yields 3. -/
theorem swapChainImageCount_spec_witness :
    SwapChainImageCount ⟨2, 0, ⟨800, 600⟩, ⟨1, 1⟩, ⟨4096, 4096⟩⟩ = 3 ∧
    SwapChainImageCount ⟨3, 3, ⟨800, 600⟩, ⟨1, 1⟩, ⟨4096, 4096⟩⟩ = 3 := by
  constructor
  · have h := (swapChainImageCount_spec ⟨2, 0, ⟨800, 600⟩, ⟨1, 1⟩, ⟨4096, 4096⟩⟩
      (by decide) (by decide)).1 (by decide)
    simpa using h
  · have h := (swapChainImageCount_spec ⟨3, 3, ⟨800, 600⟩, ⟨1, 1⟩, ⟨4096, 4096⟩⟩
      (by decide) (by decide)).2 (by decide)
    simpa using h

/-- Claim C3: the end-to-end negotiation on the spec example yields
the (B8G8R8A8, sRGB nonlinear) format, FIFO, extent 800 by 600, and three
images. -/
theorem negotiate_end_to_end_example :
    Negotiate capsEndToEnd
      [⟨VK_FORMAT_R8G8B8A8_SRGB, VK_COLOR_SPACE_EXTENDED_SRGB_LINEAR_EXT⟩,
       ⟨VK_FORMAT_B8G8R8A8_SRGB, VK_COLOR_SPACE_SRGB_NONLINEAR_KHR⟩]
      [VK_PRESENT_MODE_FIFO_KHR] 800 600 =
    some { surfaceFormat := ⟨VK_FORMAT_B8G8R8A8_SRGB, VK_COLOR_SPACE_SRGB_NONLINEAR_KHR⟩,
           presentMode := VK_PRESENT_MODE_FIFO_KHR,
           extent := ⟨800, 600⟩,
           imageCount := 3 } := by
  decide

/-- Claim C4: whenever the format list contains an entry with the preferred
pixel format and color space, `ChooseSwapSurfaceFormat` returns exactly that
entry, regardless of its position. -/
theorem chooseSwapSurfaceFormat_preferred (fs : List VkSurfaceFormatKHR)
    (f : VkSurfaceFormatKHR) (hmem : f ∈ fs)
    (hfmt : f.format = VK_FORMAT_B8G8R8A8_SRGB)
    (hcs : f.colorSpace = VK_COLOR_SPACE_SRGB_NONLINEAR_KHR) :
    ChooseSwapSurfaceFormat fs = some f := by
  have hf : isPreferredFormat f = true := by
    simp [isPreferredFormat, hfmt, hcs]
  unfold ChooseSwapSurfaceFormat
  cases h : fs.find? isPreferredFormat with
  | none =>
      rw [List.find?_eq_none] at h
      exact absurd hf (h f hmem)
  | some g =>
      have hg := List.find?_some h
      have hgf : g = f := by
        cases g with
        | mk gf gc =>
            cases f with
            | mk ff fc =>
                simp only [isPreferredFormat, Bool.and_eq_true, beq_iff_eq] at hg
                simp only at hfmt hcs
                simp [hg.1, hg.2, hfmt, hcs]
      rw [hgf]

/-- Claim C4, witness: a two-element list whose second entry is the preferred
combination. -/
theorem chooseSwapSurfaceFormat_preferred_witness :
    (⟨VK_FORMAT_B8G8R8A8_SRGB, VK_COLOR_SPACE_SRGB_NONLINEAR_KHR⟩ :
        VkSurfaceFormatKHR) ∈
      [(⟨VK_FORMAT_R8G8B8A8_SRGB, VK_COLOR_SPACE_EXTENDED_SRGB_LINEAR_EXT⟩ :
          VkSurfaceFormatKHR),
       ⟨VK_FORMAT_B8G8R8A8_SRGB, VK_COLOR_SPACE_SRGB_NONLINEAR_KHR⟩] ∧
    ChooseSwapSurfaceFormat
      [⟨VK_FORMAT_R8G8B8A8_SRGB, VK_COLOR_SPACE_EXTENDED_SRGB_LINEAR_EXT⟩,
       ⟨VK_FORMAT_B8G8R8A8_SRGB, VK_COLOR_SPACE_SRGB_NONLINEAR_KHR⟩] =
      some ⟨VK_FORMAT_B8G8R8A8_SRGB, VK_COLOR_SPACE_SRGB_NONLINEAR_KHR⟩ :=
  ⟨by decide,
   chooseSwapSurfaceFormat_preferred _ _ (by decide) (by decide) (by decide)⟩

/-- Claim C5: a non-empty format list with no preferred entry makes
`ChooseSwapSurfaceFormat` return the first element. -/
theorem chooseSwapSurfaceFormat_fallback (fs : List VkSurfaceFormatKHR)
    (hne : fs ≠ [])
    (hno : ∀ f ∈ fs, ¬ (f.format = VK_FORMAT_B8G8R8A8_SRGB ∧
        f.colorSpace = VK_COLOR_SPACE_SRGB_NONLINEAR_KHR)) :
    ChooseSwapSurfaceFormat fs = some (fs.head hne) := by
  have hfind : fs.find? isPreferredFormat = none := by
    rw [List.find?_eq_none]
    intro x hx
    have hx2 := hno x hx
    simp only [isPreferredFormat, Bool.and_eq_true, beq_iff_eq]
    intro hc
    exact hx2 hc
  unfold ChooseSwapSurfaceFormat
  rw [hfind]
  cases fs with
  | nil => exact absurd rfl hne
  | cons a t => simp

/-- Claim C5, witness: a singleton list without the preferred entry. -/
theorem chooseSwapSurfaceFormat_fallback_witness :
    ([(⟨VK_FORMAT_R8G8B8A8_SRGB, VK_COLOR_SPACE_SRGB_NONLINEAR_KHR⟩ :
        VkSurfaceFormatKHR)] ≠ []) ∧
    ChooseSwapSurfaceFormat
      [⟨VK_FORMAT_R8G8B8A8_SRGB, VK_COLOR_SPACE_SRGB_NONLINEAR_KHR⟩] =
      some ⟨VK_FORMAT_R8G8B8A8_SRGB, VK_COLOR_SPACE_SRGB_NONLINEAR_KHR⟩ :=
  ⟨by decide,
   chooseSwapSurfaceFormat_fallback
     [⟨VK_FORMAT_R8G8B8A8_SRGB, VK_COLOR_SPACE_SRGB_NONLINEAR_KHR⟩]
     (by decide) (by decide)⟩

/-- Claim C6: `ChooseSwapPresentMode` returns mailbox when the mode list
contains it, and FIFO otherwise. -/
theorem choosePresentMode_mailbox_else_fifo (modes : List Nat) :
    ChooseSwapPresentMode modes =
      if VK_PRESENT_MODE_MAILBOX_KHR ∈ modes then VK_PRESENT_MODE_MAILBOX_KHR
      else VK_PRESENT_MODE_FIFO_KHR :=
  choosePresentMode_eq modes

/-- Claim C7: when the current extent is the sentinel on both axes and the
extent bounds are componentwise ordered, the returned extent lies
componentwise in `[minImageExtent, maxImageExtent]`. -/
theorem chooseSwapExtent_clamped_bounds (caps : VkSurfaceCapabilitiesKHR)
    (fbWidth fbHeight : Nat)
    (hsent : caps.currentExtent = ⟨UINT32_MAX, UINT32_MAX⟩)
    (hw : caps.minImageExtent.width ≤ caps.maxImageExtent.width)
    (hh : caps.minImageExtent.height ≤ caps.maxImageExtent.height) :
    caps.minImageExtent.width ≤ (ChooseSwapExtent caps fbWidth fbHeight).width ∧
    (ChooseSwapExtent caps fbWidth fbHeight).width ≤ caps.maxImageExtent.width ∧
    caps.minImageExtent.height ≤ (ChooseSwapExtent caps fbWidth fbHeight).height ∧
    (ChooseSwapExtent caps fbWidth fbHeight).height ≤ caps.maxImageExtent.height := by
  have hwidth : caps.currentExtent.width = UINT32_MAX := by rw [hsent]
  unfold ChooseSwapExtent
  simp only [hwidth, ne_eq, not_true_eq_false, if_false]
  have h1 := stdClamp_bounds fbWidth caps.minImageExtent.width
    caps.maxImageExtent.width hw
  have h2 := stdClamp_bounds fbHeight caps.minImageExtent.height
    caps.maxImageExtent.height hh
  exact ⟨h1.1, h1.2, h2.1, h2.2⟩

/-- Claim C7, witness: framebuffer (1920,1080) with bounds (1,1)..(1024,1024)
stays within the bounds, and the result is exactly (1024, 1024). -/
theorem chooseSwapExtent_clamped_bounds_witness :
    (capsSmallBounds.minImageExtent.width ≤
        (ChooseSwapExtent capsSmallBounds 1920 1080).width ∧
      (ChooseSwapExtent capsSmallBounds 1920 1080).width ≤
        capsSmallBounds.maxImageExtent.width ∧
      capsSmallBounds.minImageExtent.height ≤
        (ChooseSwapExtent capsSmallBounds 1920 1080).height ∧
      (ChooseSwapExtent capsSmallBounds 1920 1080).height ≤
        capsSmallBounds.maxImageExtent.height) ∧
    ChooseSwapExtent capsSmallBounds 1920 1080 = ⟨1024, 1024⟩ :=
  ⟨chooseSwapExtent_clamped_bounds capsSmallBounds 1920 1080
     (by decide) (by decide) (by decide),
   by decide⟩

/-- Claim C8: on a non-empty format list the format selection always yields a
value (the fallback index access is in bounds), and the present-mode selection
is total, always returning either mailbox or FIFO with no failure branch. -/
theorem swapchain_selection_total (fs : List VkSurfaceFormatKHR)
    (modes : List Nat) (hne : fs ≠ []) :
    (∃ f, ChooseSwapSurfaceFormat fs = some f) ∧
    (ChooseSwapPresentMode modes = VK_PRESENT_MODE_MAILBOX_KHR ∨
      ChooseSwapPresentMode modes = VK_PRESENT_MODE_FIFO_KHR) := by
  constructor
  · unfold ChooseSwapSurfaceFormat
    cases h : fs.find? isPreferredFormat with
    | some g => exact ⟨g, rfl⟩
    | none =>
        cases fs with
        | nil => exact absurd rfl hne
        | cons a t => exact ⟨a, by simp⟩
  · rw [choosePresentMode_eq]
    split
    · exact Or.inl rfl
    · exact Or.inr rfl

/-- Claim C8, witness: a singleton format list and the empty mode list. -/
theorem swapchain_selection_total_witness :
    ([(⟨VK_FORMAT_R8G8B8A8_SRGB, VK_COLOR_SPACE_SRGB_NONLINEAR_KHR⟩ :
        VkSurfaceFormatKHR)] ≠ []) ∧
    ((∃ f, ChooseSwapSurfaceFormat
        [⟨VK_FORMAT_R8G8B8A8_SRGB, VK_COLOR_SPACE_SRGB_NONLINEAR_KHR⟩] =
          some f) ∧
      (ChooseSwapPresentMode [] = VK_PRESENT_MODE_MAILBOX_KHR ∨
        ChooseSwapPresentMode [] = VK_PRESENT_MODE_FIFO_KHR)) :=
  ⟨by decide,
   swapchain_selection_total
     [⟨VK_FORMAT_R8G8B8A8_SRGB, VK_COLOR_SPACE_SRGB_NONLINEAR_KHR⟩]
     [] (by decide)⟩

/-- Claim C9: the composite negotiation is deterministic; two runs on equal
inputs produce equal outputs. -/
theorem negotiate_deterministic
    (c1 c2 : VkSurfaceCapabilitiesKHR)
    (fs1 fs2 : List VkSurfaceFormatKHR) (ms1 ms2 : List Nat)
    (w1 w2 ht1 ht2 : Nat)
    (hc : c1 = c2) (hf : fs1 = fs2) (hm : ms1 = ms2)
    (hw : w1 = w2) (hh : ht1 = ht2) :
    Negotiate c1 fs1 ms1 w1 ht1 = Negotiate c2 fs2 ms2 w2 ht2 := by
  subst hc
  subst hf
  subst hm
  subst hw
  subst hh
  rfl

/-- Claim C9, witness: two identical concrete runs agree. -/
theorem negotiate_deterministic_witness :
    Negotiate capsEndToEnd
      [⟨VK_FORMAT_B8G8R8A8_SRGB, VK_COLOR_SPACE_SRGB_NONLINEAR_KHR⟩]
      [VK_PRESENT_MODE_FIFO_KHR] 800 600 =
    Negotiate capsEndToEnd
      [⟨VK_FORMAT_B8G8R8A8_SRGB, VK_COLOR_SPACE_SRGB_NONLINEAR_KHR⟩]
      [VK_PRESENT_MODE_FIFO_KHR] 800 600 :=
  negotiate_deterministic capsEndToEnd capsEndToEnd _ _ _ _ 800 800 600 600
    rfl rfl rfl rfl rfl

/-- Claim C10: when `minImageCount + 1` does not overflow `uint32_t` and
`maxImageCount` is zero or at least `minImageCount`, the selected image count
is at least `minImageCount`, and at most `maxImageCount` whenever that bound
is nonzero. -/
theorem swapChainImageCount_bounds (caps : VkSurfaceCapabilitiesKHR)
    (hnov : caps.minImageCount + 1 < 4294967296)
    (hord : caps.maxImageCount = 0 ∨ caps.minImageCount ≤ caps.maxImageCount) :
    caps.minImageCount ≤ SwapChainImageCount caps ∧
    (caps.maxImageCount ≠ 0 → SwapChainImageCount caps ≤ caps.maxImageCount) := by
  simp only [SwapChainImageCount]
  have hmod : (caps.minImageCount + 1) % 4294967296 = caps.minImageCount + 1 :=
    Nat.mod_eq_of_lt hnov
  rw [hmod]
  split
  · next hif => omega
  · next hif =>
      constructor
      · omega
      · intro hmax
        omega

/-- Claim C10, witness: min=2, max=3 gives a count between 2 and 3. -/
theorem swapChainImageCount_bounds_witness :
    (2 + 1 < 4294967296 ∧ ((3 : Nat) = 0 ∨ 2 ≤ 3)) ∧
    (2 ≤ SwapChainImageCount ⟨2, 3, ⟨800, 600⟩, ⟨1, 1⟩, ⟨4096, 4096⟩⟩ ∧
      ((3 : Nat) ≠ 0 →
        SwapChainImageCount ⟨2, 3, ⟨800, 600⟩, ⟨1, 1⟩, ⟨4096, 4096⟩⟩ ≤ 3)) :=
  ⟨⟨by decide, by decide⟩,
   swapChainImageCount_bounds ⟨2, 3, ⟨800, 600⟩, ⟨1, 1⟩, ⟨4096, 4096⟩⟩
     (by decide) (by decide)⟩

end VulkanWindow
